import Mathlib

/-!
Shallow embedding of the core protocol logic of src/backend/server.js:
the CSRF token cache, the multi-endpoint token acquirer, and the
validate / refresh state machines.

Upstream HTTP transport is modelled as an oracle (a `World`): each fetch
site consults the oracle at an index identifying the request, and the
oracle answers with either a thrown exception (network failure) or a
`Response`.  JavaScript mutable state (the `csrfTokens` map) and the
issued-request trace are threaded explicitly through a state record `St`.
Times are milliseconds as naturals; truncated subtraction agrees with the
JavaScript comparison `now - timestamp < 300000` on all inputs (a
negative JavaScript difference and a truncated-to-zero Lean difference
both satisfy the bound).
-/

namespace HunterzzServer

/-- Result of a JavaScript expression that may throw: either a value or a
thrown exception carrying a message. -/
inductive JsResult (α : Type) where
  | ok (value : α)
  | thrown (message : String)
  deriving Repr, DecidableEq

/-- Payload of the identity endpoint body, as consumed by
`validateCookieWithRoblox` after `response.json()`. -/
structure UserData where
  id : Nat
  name : String
  displayName : String
  deriving Repr, DecidableEq

/-- An upstream HTTP response, as observed through the fields the server
code reads: the status code, the two response headers it consults, and
the results of reading the body as text or as JSON (each of which may
itself throw). -/
structure Response where
  status : Nat
  csrfTokenHeader : Option String
  wwwAuthenticate : Option String
  textResult : JsResult String
  jsonResult : JsResult UserData
  deriving Repr, DecidableEq

/-- node-fetch `response.ok`: status in the 2xx range. -/
def responseOk (r : Response) : Bool :=
  200 ≤ r.status && r.status < 300

/-- JavaScript truthiness of a nullable string: null and the empty string
are falsy. -/
def strTruthy : Option String → Bool
  | none => false
  | some s => s ≠ ""

/-- Substring test, modelling JavaScript String.prototype.includes. -/
def strIncludes (s pat : String) : Bool :=
  (List.range (s.data.length + 1)).any fun i => pat.data.isPrefixOf (s.data.drop i)

def tokenValidationFailedMarker : String := "Token Validation Failed"

def csrfMarker : String := "CSRF"

def xCsrfTokenUpper : String := "X-CSRF-TOKEN"

/-- The body test both validate and refresh apply to a 403 body:
text.includes of the token-validation marker or of the CSRF marker. -/
def hasCSRFMarkerText (t : String) : Bool :=
  strIncludes t tokenValidationFailedMarker || strIncludes t csrfMarker

/-- The www-authenticate test of getCSRFToken: header truthy and naming
the anti-forgery mechanism. -/
def wwwAuthRequiresCSRF : Option String → Bool
  | none => false
  | some s => (s ≠ "" : Bool) && strIncludes s xCsrfTokenUpper

/- ------------------------------------------------------------------ -/
/- Token cache (the csrfTokens map, lines 17-41 of server.js)          -/
/- ------------------------------------------------------------------ -/

/-- One entry of the csrfTokens map. -/
structure CacheEntry where
  token : String
  timestamp : Nat
  deriving Repr, DecidableEq

/-- The csrfTokens map: cookie string to entry. -/
def Cache : Type := String → Option CacheEntry

def cacheDelete (cookie : String) (cache : Cache) : Cache :=
  fun k => if k = cookie then none else cache k

def cacheSet (cookie : String) (e : CacheEntry) (cache : Cache) : Cache :=
  fun k => if k = cookie then some e else cache k

def emptyCache : Cache := fun _ => none

/-- Freshness window of the cache: 5 minutes in milliseconds. -/
def FIVE_MIN_MS : Nat := 5 * 60 * 1000

/-- getStoredCSRFToken (server.js lines 21-34): return the token when the
entry exists and is less than five minutes old; an aged entry is deleted
and null returned; a missing entry returns null. -/
def getStoredCSRFToken (robloxCookie : String) (now : Nat) (cache : Cache) :
    Option String × Cache :=
  match cache robloxCookie with
  | none => (none, cache)
  | some tokenData =>
    if now - tokenData.timestamp < FIVE_MIN_MS then
      (some tokenData.token, cache)
    else
      (none, cacheDelete robloxCookie cache)

/-- storeCSRFToken (server.js lines 36-41): overwrite the entry with the
new token at the current time. -/
def storeCSRFToken (robloxCookie token : String) (now : Nat) (cache : Cache) :
    Cache :=
  cacheSet robloxCookie ⟨token, now⟩ cache

/- ------------------------------------------------------------------ -/
/- Request descriptors                                                 -/
/- ------------------------------------------------------------------ -/

/-- The options object passed to fetch, restricted to the fields server.js
sets.  A field left at none means the fetch call site did not set it and
node-fetch applies its default (method GET, redirect follow). -/
structure RequestOptions where
  method : Option String
  headers : List (String × String)
  redirect : Option String
  body : Option String
  deriving Repr, DecidableEq

def manualRedirect : String := "manual"

def userAgentValue : String :=
  "Mozilla/5.0 (Windows NT 10.0; Win64; x64) AppleWebKit/537.36 (KHTML, like Gecko) Chrome/120.0.0.0 Safari/537.36"

def cookieHeaderValue (robloxCookie : String) : String :=
  ".ROBLOSECURITY=" ++ robloxCookie

/-- Headers of the acquirer probes (server.js lines 73-80). -/
def acqHeaders (robloxCookie : String) : List (String × String) :=
  [("Cookie", cookieHeaderValue robloxCookie),
   ("User-Agent", userAgentValue),
   ("Accept", "application/json"),
   ("Accept-Language", "en-US,en;q=0.9"),
   ("Referer", "https://www.roblox.com/"),
   ("Origin", "https://www.roblox.com")]

/-- Headers of the validator identity requests (server.js lines 129-137
and 167-175). -/
def identityHeaders (robloxCookie csrfToken : String) : List (String × String) :=
  [("Cookie", cookieHeaderValue robloxCookie),
   ("X-CSRF-TOKEN", csrfToken),
   ("User-Agent", userAgentValue),
   ("Accept", "application/json"),
   ("Accept-Language", "en-US,en;q=0.9"),
   ("Referer", "https://www.roblox.com/"),
   ("Origin", "https://www.roblox.com")]

/-- Headers of the refresher endpoint attempts (server.js lines 284-293).
The token slot is an Option because after a failed in-loop token refetch
the JavaScript variable holding the token is null. -/
def refreshHeaders (robloxCookie : String) (csrfToken : Option String) :
    List (String × String) :=
  [("Cookie", cookieHeaderValue robloxCookie),
   ("X-CSRF-TOKEN", match csrfToken with | some t => t | none => "null"),
   ("User-Agent", userAgentValue),
   ("Accept", "application/json"),
   ("Accept-Language", "en-US,en;q=0.9"),
   ("Referer", "https://www.roblox.com/"),
   ("Origin", "https://www.roblox.com"),
   ("Content-Type", "application/json")]

/-- Options of an acquirer probe (server.js lines 71-82): explicit method,
browser headers, redirect manual, no body. -/
def acqRequestOptions (robloxCookie method : String) : RequestOptions :=
  { method := some method
    headers := acqHeaders robloxCookie
    redirect := some manualRedirect
    body := none }

/-- Options of the validator identity request and of its retry (server.js
lines 128-138 and 166-176): the fetch call passes an object containing
only headers, so method and redirect keep the node-fetch defaults. -/
def identityRequestOptions (robloxCookie csrfToken : String) : RequestOptions :=
  { method := none
    headers := identityHeaders robloxCookie csrfToken
    redirect := none
    body := none }

/-- Options of a refresher endpoint attempt (server.js lines 282-299):
explicit method, headers with token and content type, redirect manual,
optional body. -/
def refreshRequestOptions (robloxCookie : String) (csrfToken : Option String)
    (method : String) (body : Option String) : RequestOptions :=
  { method := some method
    headers := refreshHeaders robloxCookie csrfToken
    redirect := some manualRedirect
    body := body }

/-- Which fetch site issued a request: an acquirer probe, a validator
identity request, or a refresher loop attempt. -/
inductive Site where
  | acq
  | identity
  | refreshLoop
  deriving Repr, DecidableEq

/-- One issued upstream request: the site, the url and the options. -/
structure ReqRecord where
  site : Site
  url : String
  options : RequestOptions
  deriving Repr, DecidableEq

/- ------------------------------------------------------------------ -/
/- World and threaded state                                            -/
/- ------------------------------------------------------------------ -/

/-- The upstream transport, as an oracle.  acqFetch is indexed by the
getCSRFToken invocation number and the endpoint position inside that
invocation; idFetch by the identity-request number; refFetch by the
refresher endpoint position and whether the request is the in-loop
retry. -/
structure World where
  acqFetch : Nat → Nat → JsResult Response
  idFetch : Nat → JsResult Response
  refFetch : Nat → Bool → JsResult Response

/-- Threaded mutable state: the csrfTokens cache, the two oracle
counters, and the chronological trace of issued requests. -/
structure St where
  cache : Cache
  acqCalls : Nat
  idReqs : Nat
  log : List ReqRecord

def logReq (r : ReqRecord) (st : St) : St :=
  { st with log := st.log ++ [r] }

/- ------------------------------------------------------------------ -/
/- Token acquirer: getCSRFToken (server.js lines 44-109)               -/
/- ------------------------------------------------------------------ -/

/-- One candidate endpoint of the acquirer. -/
structure AcqEndpoint where
  url : String
  method : String
  deriving Repr, DecidableEq

/-- The ordered candidate list of getCSRFToken (server.js lines 48-65). -/
def csrfEndpoints : List AcqEndpoint :=
  [⟨"https://auth.roblox.com/v2/login", "POST"⟩,
   ⟨"https://www.roblox.com/home", "GET"⟩,
   ⟨"https://users.roblox.com/v1/users/authenticated", "GET"⟩,
   ⟨"https://itemconfiguration.roblox.com/v1/creations/get-asset-details", "POST"⟩]

/-- The request record of the probe to one acquirer endpoint. -/
def acqProbeRecord (robloxCookie : String) (ep : AcqEndpoint) : ReqRecord :=
  ⟨Site.acq, ep.url, acqRequestOptions robloxCookie ep.method⟩

/-- The loop body of getCSRFToken (server.js lines 67-105).  Each
iteration issues one probe; a thrown fetch is caught and the loop
continues; a truthy x-csrf-token response header is stored and returned;
otherwise the loop continues to the next endpoint whether or not the
response is a 403 naming the anti-forgery mechanism (both the explicit
continue and the fall-through end of the loop body advance the loop). -/
def getCSRFTokenGo (w : World) (robloxCookie : String) (now : Nat)
    (callIdx : Nat) : List AcqEndpoint → Nat → St → Option String × St
  | [], _i, st => (none, st)
  | ep :: rest, i, st =>
    let st1 := logReq (acqProbeRecord robloxCookie ep) st
    let next := fun s => getCSRFTokenGo w robloxCookie now callIdx rest (i + 1) s
    match w.acqFetch callIdx i with
    | JsResult.thrown _msg => next st1
    | JsResult.ok response =>
      match response.csrfTokenHeader with
      | some csrfToken =>
        if csrfToken = "" then
          if response.status = 403 && wwwAuthRequiresCSRF response.wwwAuthenticate then
            next st1
          else
            next st1
        else
          (some csrfToken,
           { st1 with cache := storeCSRFToken robloxCookie csrfToken now st1.cache })
      | none =>
        if response.status = 403 && wwwAuthRequiresCSRF response.wwwAuthenticate then
          next st1
        else
          next st1

/-- getCSRFToken (server.js lines 44-109): probe the candidate list in
order; all candidates exhausted returns null. -/
def getCSRFToken (w : World) (robloxCookie : String) (now : Nat) (st : St) :
    Option String × St :=
  getCSRFTokenGo w robloxCookie now st.acqCalls csrfEndpoints 0
    { st with acqCalls := st.acqCalls + 1 }

/- ------------------------------------------------------------------ -/
/- Session validator: validateCookieWithRoblox (server.js 112-223)     -/
/- ------------------------------------------------------------------ -/

/-- The outcome record of validateCookieWithRoblox. -/
structure ValidationOutcome where
  valid : Bool
  userId : Option Nat := none
  username : Option String := none
  displayName : Option String := none
  error : Option String := none
  deriving Repr, DecidableEq

/-- The outcome record of refreshCookieWithRoblox. -/
structure RefreshOutcome where
  refreshed : Bool
  cookie : Option String := none
  warning : Option String := none
  error : Option String := none
  deriving Repr, DecidableEq

def couldNotObtainForValidationMsg : String :=
  "Could not obtain CSRF token for validation"

def cookieInvalidOrExpiredMsg : String := "Cookie is invalid or expired"

def couldNotObtainValidTokenMsg : String := "Could not obtain valid CSRF token"

def accessForbiddenMsg : String :=
  "Access forbidden (403). Cookie may have insufficient permissions."

def robloxApiReturnedMsg (status : Nat) : String :=
  "Roblox API returned " ++ toString status

def robloxApiReturnedInvalidMsg (status : Nat) : String :=
  "Roblox API returned " ++ toString status ++ " - Cookie may be invalid"

def couldNotObtainForRefreshMsg : String :=
  "Could not obtain CSRF token for refresh"

def cannotRefreshInvalidMsg (validationError : Option String) : String :=
  "Cannot refresh invalid cookie: " ++
    (match validationError with | some e => e | none => "undefined")

def authenticationErrorsMsg : String :=
  "Cookie could not be refreshed due to authentication errors"

def refreshUnconfirmedWarning : String :=
  "Refresh confirmation failed but cookie appears valid"

def invalidOutcome (msg : String) : ValidationOutcome :=
  { valid := false, error := some msg }

def validOutcome (userData : UserData) : ValidationOutcome :=
  { valid := true
    userId := some userData.id
    username := some userData.name
    displayName := some userData.displayName }

def identityUrl : String := "https://users.roblox.com/v1/users/authenticated"

/-- Issue one identity request (the fetch of server.js line 128 or line
166): consult the idFetch oracle at the current identity-request counter,
log the request, advance the counter. -/
def fetchIdentity (w : World) (robloxCookie csrfToken : String) (st : St) :
    JsResult Response × St :=
  (w.idFetch st.idReqs,
   { st with
      idReqs := st.idReqs + 1
      log := st.log ++ [⟨Site.identity, identityUrl,
                          identityRequestOptions robloxCookie csrfToken⟩] })

/-- validateCookieWithRoblox (server.js lines 112-223).  The enclosing
try/catch of the source is compiled away: every site that can throw
(the two identity fetches and the body reads, which node-fetch rejects
with an exception) maps its thrown message to the catch result
valid false / error message, with the mutations made so far kept. -/
def validateCookieWithRoblox (w : World) (robloxCookie : String) (now : Nat)
    (st : St) : ValidationOutcome × St :=
  let stored := getStoredCSRFToken robloxCookie now st.cache
  let st1 : St := { st with cache := stored.2 }
  let resolved : Option String × St :=
    if strTruthy stored.1 then (stored.1, st1) else getCSRFToken w robloxCookie now st1
  let csrfToken := resolved.1
  let st2 := resolved.2
  if ¬ strTruthy csrfToken then
    (invalidOutcome couldNotObtainForValidationMsg, st2)
  else
    let fetched := fetchIdentity w robloxCookie (csrfToken.getD "") st2
    let st3 := fetched.2
    match fetched.1 with
    | JsResult.thrown msg => (invalidOutcome msg, st3)
    | JsResult.ok response =>
      if response.status = 401 then
        (invalidOutcome cookieInvalidOrExpiredMsg, st3)
      else if response.status = 403 then
        match response.textResult with
        | JsResult.thrown msg => (invalidOutcome msg, st3)
        | JsResult.ok responseText =>
          if hasCSRFMarkerText responseText then
            let refetched := getCSRFToken w robloxCookie now st3
            let newToken := refetched.1
            let st4 := refetched.2
            if ¬ strTruthy newToken then
              (invalidOutcome couldNotObtainValidTokenMsg, st4)
            else
              let retried := fetchIdentity w robloxCookie (newToken.getD "") st4
              let st5 := retried.2
              match retried.1 with
              | JsResult.thrown msg => (invalidOutcome msg, st5)
              | JsResult.ok retryResponse =>
                if ¬ responseOk retryResponse then
                  (invalidOutcome (robloxApiReturnedInvalidMsg retryResponse.status), st5)
                else
                  match retryResponse.jsonResult with
                  | JsResult.thrown msg => (invalidOutcome msg, st5)
                  | JsResult.ok userData => (validOutcome userData, st5)
          else
            (invalidOutcome accessForbiddenMsg, st3)
      else if ¬ responseOk response then
        (invalidOutcome (robloxApiReturnedMsg response.status), st3)
      else
        match response.jsonResult with
        | JsResult.thrown msg => (invalidOutcome msg, st3)
        | JsResult.ok userData => (validOutcome userData, st3)

/- ------------------------------------------------------------------ -/
/- Session refresher: refreshCookieWithRoblox (server.js 226-379)      -/
/- ------------------------------------------------------------------ -/

/-- One candidate endpoint of the refresher. -/
structure RefEndpoint where
  url : String
  method : String
  body : Option String
  description : String
  deriving Repr, DecidableEq

def catalogItemsBody : String :=
  "\x7b\"items\":[\x7b\"id\":1,\"itemType\":\"Asset\"\x7d]\x7d"

/-- The ordered session-extending endpoint list of refreshCookieWithRoblox
(server.js lines 257-274). -/
def refreshEndpoints : List RefEndpoint :=
  [⟨"https://economy.roblox.com/v1/user/currency", "GET", none, "Economy endpoint"⟩,
   ⟨"https://thumbnails.roblox.com/v1/users/avatar", "GET", none, "Avatar endpoint"⟩,
   ⟨"https://catalog.roblox.com/v1/catalog/items/details", "POST",
     some catalogItemsBody, "Catalog endpoint"⟩]

/-- The request record of one refresher attempt against an endpoint with
the current token. -/
def refreshAttemptRecord (robloxCookie : String) (csrfToken : Option String)
    (ep : RefEndpoint) : ReqRecord :=
  ⟨Site.refreshLoop, ep.url,
   refreshRequestOptions robloxCookie csrfToken ep.method ep.body⟩

/-- Statuses the refresher treats as success (server.js lines 306, 328). -/
def refreshSuccessStatus (status : Nat) : Bool :=
  status = 200 || status = 201 || status = 204

def refreshedOutcome (robloxCookie : String) : RefreshOutcome :=
  { refreshed := true, cookie := some robloxCookie }

/-- The terminal in-loop 401 outcome (server.js lines 345-348). -/
def invalidCookieRefreshOutcome : RefreshOutcome :=
  { refreshed := false, error := some cookieInvalidOrExpiredMsg }

/-- The post-loop authentication-errors outcome (server.js lines 359-362). -/
def authErrorsOutcome : RefreshOutcome :=
  { refreshed := false, error := some authenticationErrorsMsg }

/-- The post-loop optimistic outcome (server.js lines 367-371). -/
def optimisticOutcome (robloxCookie : String) : RefreshOutcome :=
  { refreshed := true, cookie := some robloxCookie,
    warning := some refreshUnconfirmedWarning }

/-- The endpoint loop of refreshCookieWithRoblox (server.js lines
278-354).  Arguments after the endpoint list: the endpoint position, the
current csrfToken variable (mutable across iterations), the lastResponse
variable, and the state.  Returns some outcome when the source returns
from inside the loop, otherwise none together with the final lastResponse.
A thrown fetch or body read is caught by the per-endpoint catch and the
loop continues; the in-loop retry response is never assigned to
lastResponse. -/
def refreshLoopGo (w : World) (robloxCookie : String) (now : Nat) :
    List RefEndpoint → Nat → Option String → Option Response → St →
    Option RefreshOutcome × Option Response × St
  | [], _i, _csrfToken, lastResponse, st => (none, lastResponse, st)
  | ep :: rest, i, csrfToken, lastResponse, st =>
    let st1 := logReq (refreshAttemptRecord robloxCookie csrfToken ep) st
    match w.refFetch i false with
    | JsResult.thrown _msg =>
      refreshLoopGo w robloxCookie now rest (i + 1) csrfToken lastResponse st1
    | JsResult.ok response =>
      let lastR := some response
      if refreshSuccessStatus response.status then
        (some (refreshedOutcome robloxCookie), lastR, st1)
      else if response.status = 403 then
        match response.textResult with
        | JsResult.thrown _msg =>
          refreshLoopGo w robloxCookie now rest (i + 1) csrfToken lastR st1
        | JsResult.ok responseText =>
          if hasCSRFMarkerText responseText then
            let refetched := getCSRFToken w robloxCookie now st1
            let newToken := refetched.1
            let st2 := refetched.2
            if strTruthy newToken then
              let st3 := logReq (refreshAttemptRecord robloxCookie newToken ep) st2
              match w.refFetch i true with
              | JsResult.thrown _msg =>
                refreshLoopGo w robloxCookie now rest (i + 1) newToken lastR st3
              | JsResult.ok retryResponse =>
                if refreshSuccessStatus retryResponse.status then
                  (some (refreshedOutcome robloxCookie), lastR, st3)
                else
                  refreshLoopGo w robloxCookie now rest (i + 1) newToken lastR st3
            else
              refreshLoopGo w robloxCookie now rest (i + 1) newToken lastR st2
          else
            if response.status = 401 then
              (some invalidCookieRefreshOutcome, lastR, st1)
            else
              refreshLoopGo w robloxCookie now rest (i + 1) csrfToken lastR st1
      else
        if response.status = 401 then
          (some invalidCookieRefreshOutcome, lastR, st1)
        else
          refreshLoopGo w robloxCookie now rest (i + 1) csrfToken lastR st1

/-- Run the endpoint loop and apply the post-loop classification of
server.js lines 356-371: a last observed 403 or 401 yields the
authentication-errors failure, anything else (including no observed
response at all) yields the optimistic success with a warning. -/
def refreshRunLoop (w : World) (robloxCookie : String) (now : Nat)
    (csrfToken : Option String) (st : St) : RefreshOutcome × St :=
  match refreshLoopGo w robloxCookie now refreshEndpoints 0 csrfToken none st with
  | (some outcome, _lastResponse, st1) => (outcome, st1)
  | (none, lastResponse, st1) =>
    match lastResponse with
    | some r =>
      if r.status = 403 || r.status = 401 then
        (authErrorsOutcome, st1)
      else
        (optimisticOutcome robloxCookie, st1)
    | none =>
      (optimisticOutcome robloxCookie, st1)

/-- The second token check of refreshCookieWithRoblox (server.js lines
244-252) followed by the loop: a still-falsy token is acquired directly,
and a failed acquisition is terminal. -/
def refreshAfterToken (w : World) (robloxCookie : String) (now : Nat)
    (csrfToken : Option String) (st : St) : RefreshOutcome × St :=
  if ¬ strTruthy csrfToken then
    let acquired := getCSRFToken w robloxCookie now st
    if ¬ strTruthy acquired.1 then
      ({ refreshed := false, error := some couldNotObtainForRefreshMsg }, acquired.2)
    else
      refreshRunLoop w robloxCookie now acquired.1 acquired.2
  else
    refreshRunLoop w robloxCookie now csrfToken st

/-- refreshCookieWithRoblox (server.js lines 226-379): resolve a token
through the cache, through a delegated validation, or directly through
the acquirer, then run the endpoint loop. -/
def refreshCookieWithRoblox (w : World) (robloxCookie : String) (now : Nat)
    (st : St) : RefreshOutcome × St :=
  let stored := getStoredCSRFToken robloxCookie now st.cache
  let st1 : St := { st with cache := stored.2 }
  if ¬ strTruthy stored.1 then
    let validated := validateCookieWithRoblox w robloxCookie now st1
    let validation := validated.1
    let st2 := validated.2
    if ¬ validation.valid then
      ({ refreshed := false,
         error := some (cannotRefreshInvalidMsg validation.error) }, st2)
    else
      let stored2 := getStoredCSRFToken robloxCookie now st2.cache
      let st3 : St := { st2 with cache := stored2.2 }
      refreshAfterToken w robloxCookie now stored2.1 st3
  else
    refreshAfterToken w robloxCookie now stored.1 st1

/- ------------------------------------------------------------------ -/
/- Concrete worlds and states used by the witnesses                    -/
/- ------------------------------------------------------------------ -/

def cookieS1 : String := "S1"

def tokenT1 : String := "T1"

def cacheW2 : Cache := cacheSet cookieS1 ⟨tokenT1, 0⟩ emptyCache

def emptyText : String := ""

def invalidJsonMsg : String := "invalid json"

def noMarkerText : String := "no dice"

def networkDownMsg : String := "network down"

/-- An uninformative response: a status with no token header. -/
def plainResponse (status : Nat) : Response :=
  { status := status
    csrfTokenHeader := none
    wwwAuthenticate := none
    textResult := JsResult.ok emptyText
    jsonResult := JsResult.thrown invalidJsonMsg }

/-- A response carrying the anti-forgery token header. -/
def tokenResponse (token : String) : Response :=
  { plainResponse 200 with csrfTokenHeader := some token }

/-- A 403 whose body names the anti-forgery mechanism. -/
def marker403Response : Response :=
  { plainResponse 403 with textResult := JsResult.ok csrfMarker }

/-- A 403 whose body does not name the anti-forgery mechanism. -/
def plain403Response : Response :=
  { plainResponse 403 with textResult := JsResult.ok noMarkerText }

/-- An initial state whose cache holds a fresh token for cookieS1. -/
def stFresh : St := ⟨cacheW2, 0, 0, []⟩

/-- An initial state with an empty cache. -/
def stEmpty : St := ⟨emptyCache, 0, 0, []⟩

/-- A probe answer that does not hand out a token: the fetch threw, or
the response carries no truthy x-csrf-token header. -/
def probeUninformative : JsResult Response → Prop
  | JsResult.thrown _ => True
  | JsResult.ok r => strTruthy r.csrfTokenHeader = false

/-- A refresher first attempt that neither succeeds nor ends the loop:
the fetch threw, or the response status is outside 200/201/204, 403 and
401. -/
def refAttemptNeutral : JsResult Response → Prop
  | JsResult.thrown _ => True
  | JsResult.ok r =>
    refreshSuccessStatus r.status = false ∧ r.status ≠ 403 ∧ r.status ≠ 401

/-- Witness world for C3 and C9: the first acquirer probe throws, every
later probe returns the token; the identity endpoint answers 500; the
refresher endpoints answer 500. -/
def w3 : World :=
  { acqFetch := fun _ i =>
      if i = 0 then JsResult.thrown networkDownMsg
      else JsResult.ok (tokenResponse tokenT1)
    idFetch := fun _ => JsResult.ok (plainResponse 500)
    refFetch := fun _ _ => JsResult.ok (plainResponse 500) }

/-- Witness world for C9: every probe answers 200 without a token
header. -/
def wC9 : World :=
  { acqFetch := fun _ _ => JsResult.ok (plainResponse 200)
    idFetch := fun _ => JsResult.ok (plainResponse 500)
    refFetch := fun _ _ => JsResult.ok (plainResponse 500) }

def acqEndpoint1 : AcqEndpoint := ⟨"https://auth.roblox.com/v2/login", "POST"⟩

/-- Witness world for C1: the identity endpoint always answers 403 with
an anti-forgery marker body, the acquirer hands out token T1 at the first
probe. -/
def wRetry : World :=
  { acqFetch := fun _ _ => JsResult.ok (tokenResponse tokenT1)
    idFetch := fun _ => JsResult.ok marker403Response
    refFetch := fun _ _ => JsResult.ok (plainResponse 500) }

def boomMsg : String := "boom"

/-- Witness world for C7: the identity endpoint throws. -/
def wThrow : World :=
  { acqFetch := fun _ _ => JsResult.ok (plainResponse 500)
    idFetch := fun _ => JsResult.thrown boomMsg
    refFetch := fun _ _ => JsResult.ok (plainResponse 500) }

/-- Witness world for C6: the first refresher endpoint answers 204. -/
def wOK204 : World :=
  { acqFetch := fun _ _ => JsResult.ok (plainResponse 500)
    idFetch := fun _ => JsResult.ok (plainResponse 500)
    refFetch := fun i _ =>
      if i = 0 then JsResult.ok (plainResponse 204)
      else JsResult.thrown networkDownMsg }

/-- Witness world for C5: the first two refresher endpoints answer 500,
the last answers 403 without an anti-forgery marker. -/
def wAuthLast : World :=
  { acqFetch := fun _ _ => JsResult.ok (plainResponse 500)
    idFetch := fun _ => JsResult.ok (plainResponse 500)
    refFetch := fun i _ =>
      if i = 2 then JsResult.ok plain403Response
      else JsResult.ok (plainResponse 500) }

/-- Witness world for C4: the identity endpoint answers 401. -/
def w401W : World :=
  { acqFetch := fun _ _ => JsResult.ok (plainResponse 500)
    idFetch := fun _ => JsResult.ok (plainResponse 401)
    refFetch := fun _ _ => JsResult.ok (plainResponse 500) }

/-- The redirect discipline each issued request actually satisfies:
acquirer probes and refresher attempts carry redirect manual, while the
validator identity requests carry no redirect option (so node-fetch
follows redirects there by default). -/
def goodRedirect (reqr : ReqRecord) : Prop :=
  (reqr.site = Site.acq ∨ reqr.site = Site.refreshLoop →
    reqr.options.redirect = some manualRedirect) ∧
  (reqr.site = Site.identity → reqr.options.redirect = none)

/-- Every request of the trace satisfies the redirect discipline. -/
def GoodLog (st : St) : Prop :=
  ∀ reqr ∈ st.log, goodRedirect reqr

/- ------------------------------------------------------------------ -/
/- Helper lemmas                                                       -/
/- ------------------------------------------------------------------ -/

lemma getStoredCSRFToken_truthy_frozen (robloxCookie : String) (now : Nat)
    (cache : Cache)
    (h : strTruthy (getStoredCSRFToken robloxCookie now cache).1 = true) :
    (getStoredCSRFToken robloxCookie now cache).2 = cache := by
  cases hc : cache robloxCookie with
  | none => simp [getStoredCSRFToken, hc]
  | some tokenData =>
    simp only [getStoredCSRFToken, hc] at h ⊢
    by_cases hage : now - tokenData.timestamp < FIVE_MIN_MS
    · simp [if_pos hage]
    · rw [if_neg hage] at h
      simp [strTruthy] at h

lemma getStoredCSRFToken_truthy_some (robloxCookie : String) (now : Nat)
    (cache : Cache)
    (h : strTruthy (getStoredCSRFToken robloxCookie now cache).1 = true) :
    ∃ t, (getStoredCSRFToken robloxCookie now cache).1 = some t ∧ t ≠ "" := by
  cases ht : (getStoredCSRFToken robloxCookie now cache).1 with
  | none => rw [ht] at h; simp [strTruthy] at h
  | some t =>
    rw [ht] at h
    simp only [strTruthy, decide_eq_true_eq] at h
    exact ⟨t, rfl, by simpa using h⟩

lemma getCSRFTokenGo_nil (w : World) (robloxCookie : String) (now : Nat)
    (callIdx i : Nat) (st : St) :
    getCSRFTokenGo w robloxCookie now callIdx [] i st = (none, st) := rfl

lemma getCSRFTokenGo_cons_continue (w : World) (robloxCookie : String)
    (now : Nat) (callIdx : Nat) (ep : AcqEndpoint) (rest : List AcqEndpoint)
    (i : Nat) (st : St) (h : probeUninformative (w.acqFetch callIdx i)) :
    getCSRFTokenGo w robloxCookie now callIdx (ep :: rest) i st =
      getCSRFTokenGo w robloxCookie now callIdx rest (i + 1)
        (logReq (acqProbeRecord robloxCookie ep) st) := by
  cases hres : w.acqFetch callIdx i with
  | thrown msg => simp only [getCSRFTokenGo, hres]
  | ok response =>
    rw [hres, probeUninformative] at h
    simp only [getCSRFTokenGo, hres]
    cases hhdr : response.csrfTokenHeader with
    | none => simp
    | some tok =>
      rw [hhdr] at h
      have htok : tok = "" := by simpa [strTruthy] using h
      simp [htok]

lemma getCSRFTokenGo_cons_success (w : World) (robloxCookie : String)
    (now : Nat) (callIdx : Nat) (ep : AcqEndpoint) (rest : List AcqEndpoint)
    (i : Nat) (st : St) (response : Response) (tok : String)
    (hres : w.acqFetch callIdx i = JsResult.ok response)
    (hhdr : response.csrfTokenHeader = some tok) (hne : tok ≠ "") :
    getCSRFTokenGo w robloxCookie now callIdx (ep :: rest) i st =
      (some tok,
       { logReq (acqProbeRecord robloxCookie ep) st with
          cache := storeCSRFToken robloxCookie tok now st.cache }) := by
  simp only [getCSRFTokenGo, hres, hhdr]
  simp [hne, logReq]

lemma getCSRFTokenGo_counters (w : World) (robloxCookie : String) (now : Nat)
    (callIdx : Nat) (eps : List AcqEndpoint) :
    ∀ (i : Nat) (st : St),
      (getCSRFTokenGo w robloxCookie now callIdx eps i st).2.idReqs = st.idReqs ∧
      (getCSRFTokenGo w robloxCookie now callIdx eps i st).2.acqCalls = st.acqCalls := by
  induction eps with
  | nil => intro i st; exact ⟨rfl, rfl⟩
  | cons ep rest ih =>
    intro i st
    cases hres : w.acqFetch callIdx i with
    | thrown msg =>
      simp only [getCSRFTokenGo, hres]
      exact ih (i + 1) (logReq (acqProbeRecord robloxCookie ep) st)
    | ok response =>
      simp only [getCSRFTokenGo, hres]
      cases hhdr : response.csrfTokenHeader with
      | none =>
        simp only
        split <;> exact ih (i + 1) (logReq (acqProbeRecord robloxCookie ep) st)
      | some tok =>
        simp only
        by_cases htok : tok = ""
        · simp only [if_pos htok]
          split <;> exact ih (i + 1) (logReq (acqProbeRecord robloxCookie ep) st)
        · simp only [if_neg htok]
          exact ⟨rfl, rfl⟩

lemma getCSRFToken_counters (w : World) (robloxCookie : String) (now : Nat)
    (st : St) :
    (getCSRFToken w robloxCookie now st).2.idReqs = st.idReqs ∧
    (getCSRFToken w robloxCookie now st).2.acqCalls = st.acqCalls + 1 := by
  unfold getCSRFToken
  exact getCSRFTokenGo_counters w robloxCookie now st.acqCalls csrfEndpoints 0
    { st with acqCalls := st.acqCalls + 1 }

lemma validate_tagged (w : World) (robloxCookie : String) (now : Nat) (st : St) :
    (validateCookieWithRoblox w robloxCookie now st).1.valid = false →
      ∃ m, (validateCookieWithRoblox w robloxCookie now st).1.error = some m := by
  rcases heq : validateCookieWithRoblox w robloxCookie now st with ⟨o, st2⟩
  show o.valid = false → ∃ m, o.error = some m
  simp only [validateCookieWithRoblox, fetchIdentity] at heq
  repeat' split at heq
  all_goals
    injection heq with h1 h2
  all_goals subst h1
  all_goals simp [invalidOutcome, validOutcome]

lemma refreshLoopGo_inloop_outcomes (w : World) (robloxCookie : String)
    (now : Nat) :
    ∀ (eps : List RefEndpoint) (i : Nat) (csrfToken : Option String)
      (lastResponse : Option Response) (st : St) (o : RefreshOutcome),
      (refreshLoopGo w robloxCookie now eps i csrfToken lastResponse st).1 = some o →
      o = refreshedOutcome robloxCookie ∨ o = invalidCookieRefreshOutcome := by
  intro eps
  induction eps with
  | nil =>
    intro i csrfToken lastResponse st o h
    simp [refreshLoopGo] at h
  | cons ep rest ih =>
    intro i csrfToken lastResponse st o h
    simp only [refreshLoopGo] at h
    repeat' split at h
    all_goals
      first
        | exact ih _ _ _ _ _ h
        | (left; exact (Option.some.inj h).symm)
        | (right; exact (Option.some.inj h).symm)

lemma refreshRunLoop_tagged (w : World) (robloxCookie : String) (now : Nat)
    (csrfToken : Option String) (st : St) :
    ((refreshRunLoop w robloxCookie now csrfToken st).1.refreshed = false →
      ∃ m, (refreshRunLoop w robloxCookie now csrfToken st).1.error = some m) ∧
    ((refreshRunLoop w robloxCookie now csrfToken st).1.refreshed = true →
      (refreshRunLoop w robloxCookie now csrfToken st).1.cookie = some robloxCookie) := by
  unfold refreshRunLoop
  rcases hloop : refreshLoopGo w robloxCookie now refreshEndpoints 0 csrfToken none st
    with ⟨out, last2, st2⟩
  cases out with
  | some o =>
    have ho := refreshLoopGo_inloop_outcomes w robloxCookie now refreshEndpoints
      0 csrfToken none st o (by rw [hloop])
    rcases ho with ho | ho <;> subst ho <;>
      simp [refreshedOutcome, invalidCookieRefreshOutcome]
  | none =>
    cases last2 with
    | none => simp [optimisticOutcome]
    | some r =>
      by_cases hs : (r.status = 403 || r.status = 401 : Bool)
      · simp [hs, authErrorsOutcome]
      · simp [hs, optimisticOutcome]

lemma refreshRunLoop_tagged_eq (w : World) (robloxCookie : String) (now : Nat)
    (csrfToken : Option String) (st : St) (o : RefreshOutcome) (st2 : St)
    (heq : refreshRunLoop w robloxCookie now csrfToken st = (o, st2)) :
    (o.refreshed = false → ∃ m, o.error = some m) ∧
    (o.refreshed = true → o.cookie = some robloxCookie) := by
  have h := refreshRunLoop_tagged w robloxCookie now csrfToken st
  rw [heq] at h
  exact h

lemma refresh_tagged (w : World) (robloxCookie : String) (now : Nat) (st : St) :
    ((refreshCookieWithRoblox w robloxCookie now st).1.refreshed = false →
      ∃ m, (refreshCookieWithRoblox w robloxCookie now st).1.error = some m) ∧
    ((refreshCookieWithRoblox w robloxCookie now st).1.refreshed = true →
      (refreshCookieWithRoblox w robloxCookie now st).1.cookie = some robloxCookie) := by
  rcases heq : refreshCookieWithRoblox w robloxCookie now st with ⟨o, st2⟩
  show (o.refreshed = false → ∃ m, o.error = some m) ∧
    (o.refreshed = true → o.cookie = some robloxCookie)
  simp only [refreshCookieWithRoblox, refreshAfterToken] at heq
  repeat' split at heq
  all_goals
    first
      | (injection heq with h1 h2
         subst h1
         simp)
      | exact refreshRunLoop_tagged_eq w robloxCookie now _ _ _ _ heq

lemma refreshLoopGo_cons_thrown (w : World) (robloxCookie : String) (now : Nat)
    (ep : RefEndpoint) (rest : List RefEndpoint) (i : Nat)
    (csrfToken : Option String) (lastResponse : Option Response) (st : St)
    (msg : String) (h : w.refFetch i false = JsResult.thrown msg) :
    refreshLoopGo w robloxCookie now (ep :: rest) i csrfToken lastResponse st =
      refreshLoopGo w robloxCookie now rest (i + 1) csrfToken lastResponse
        (logReq (refreshAttemptRecord robloxCookie csrfToken ep) st) := by
  simp only [refreshLoopGo, h]

lemma refreshLoopGo_cons_neutral (w : World) (robloxCookie : String) (now : Nat)
    (ep : RefEndpoint) (rest : List RefEndpoint) (i : Nat)
    (csrfToken : Option String) (lastResponse : Option Response) (st : St)
    (r : Response) (h : w.refFetch i false = JsResult.ok r)
    (h1 : refreshSuccessStatus r.status = false)
    (h2 : r.status ≠ 403) (h3 : r.status ≠ 401) :
    refreshLoopGo w robloxCookie now (ep :: rest) i csrfToken lastResponse st =
      refreshLoopGo w robloxCookie now rest (i + 1) csrfToken (some r)
        (logReq (refreshAttemptRecord robloxCookie csrfToken ep) st) := by
  simp only [refreshLoopGo, h, h1]
  simp [h2, h3]

lemma refreshLoopGo_cons_success (w : World) (robloxCookie : String) (now : Nat)
    (ep : RefEndpoint) (rest : List RefEndpoint) (i : Nat)
    (csrfToken : Option String) (lastResponse : Option Response) (st : St)
    (r : Response) (h : w.refFetch i false = JsResult.ok r)
    (hs : refreshSuccessStatus r.status = true) :
    refreshLoopGo w robloxCookie now (ep :: rest) i csrfToken lastResponse st =
      (some (refreshedOutcome robloxCookie), some r,
       logReq (refreshAttemptRecord robloxCookie csrfToken ep) st) := by
  simp only [refreshLoopGo, h, hs]
  simp

lemma refreshLoopGo_cons_403_nomarker (w : World) (robloxCookie : String)
    (now : Nat) (ep : RefEndpoint) (rest : List RefEndpoint) (i : Nat)
    (csrfToken : Option String) (lastResponse : Option Response) (st : St)
    (r : Response) (t : String) (h : w.refFetch i false = JsResult.ok r)
    (h403 : r.status = 403) (htext : r.textResult = JsResult.ok t)
    (hm : hasCSRFMarkerText t = false) :
    refreshLoopGo w robloxCookie now (ep :: rest) i csrfToken lastResponse st =
      refreshLoopGo w robloxCookie now rest (i + 1) csrfToken (some r)
        (logReq (refreshAttemptRecord robloxCookie csrfToken ep) st) := by
  have h1 : refreshSuccessStatus (403 : Nat) = false := by decide
  simp only [refreshLoopGo, h, h403, htext, hm, h1]
  simp

lemma refreshLoopGo_cons_neutral_any (w : World) (robloxCookie : String)
    (now : Nat) (ep : RefEndpoint) (rest : List RefEndpoint) (i : Nat)
    (csrfToken : Option String) (lastResponse : Option Response) (st : St)
    (h : refAttemptNeutral (w.refFetch i false)) :
    ∃ last2,
      refreshLoopGo w robloxCookie now (ep :: rest) i csrfToken lastResponse st =
        refreshLoopGo w robloxCookie now rest (i + 1) csrfToken last2
          (logReq (refreshAttemptRecord robloxCookie csrfToken ep) st) := by
  cases hres : w.refFetch i false with
  | thrown m =>
    exact ⟨lastResponse, refreshLoopGo_cons_thrown _ _ _ _ _ _ _ _ _ _ hres⟩
  | ok r =>
    rw [hres, refAttemptNeutral] at h
    obtain ⟨h1, h2, h3⟩ := h
    exact ⟨some r, refreshLoopGo_cons_neutral _ _ _ _ _ _ _ _ _ _ hres h1 h2 h3⟩

lemma refresh_reduces_to_loop (w : World) (robloxCookie : String) (now : Nat)
    (st : St)
    (hstored : strTruthy (getStoredCSRFToken robloxCookie now st.cache).1 = true) :
    refreshCookieWithRoblox w robloxCookie now st =
      refreshRunLoop w robloxCookie now
        (getStoredCSRFToken robloxCookie now st.cache).1
        { st with cache := (getStoredCSRFToken robloxCookie now st.cache).2 } := by
  simp only [refreshCookieWithRoblox, refreshAfterToken, hstored]
  simp

/- ------------------------------------------------------------------ -/
/- Claim theorems                                                      -/
/- ------------------------------------------------------------------ -/

/-- C2: the cache lookup returns a stored token exactly when the entry is
strictly younger than five minutes; a five-minutes-old-or-older entry is
evicted and absent returned; the lookup changes nothing besides possibly
evicting the looked-up entry, and a missing entry is returned absent with
the cache untouched. -/
theorem getStoredCSRFToken_lookup_spec (robloxCookie : String) (now : Nat)
    (cache : Cache) :
    ((∃ t, (getStoredCSRFToken robloxCookie now cache).1 = some t) ↔
      (∃ e, cache robloxCookie = some e ∧ now - e.timestamp < FIVE_MIN_MS)) ∧
    (∀ e, cache robloxCookie = some e → now - e.timestamp < FIVE_MIN_MS →
      getStoredCSRFToken robloxCookie now cache = (some e.token, cache)) ∧
    (∀ e, cache robloxCookie = some e → ¬ now - e.timestamp < FIVE_MIN_MS →
      (getStoredCSRFToken robloxCookie now cache).1 = none ∧
      (getStoredCSRFToken robloxCookie now cache).2 robloxCookie = none ∧
      ∀ k, k ≠ robloxCookie →
        (getStoredCSRFToken robloxCookie now cache).2 k = cache k) ∧
    (cache robloxCookie = none →
      getStoredCSRFToken robloxCookie now cache = (none, cache)) := by
  cases hc : cache robloxCookie with
  | none =>
    refine ⟨?_, ?_, ?_, ?_⟩
    · simp [getStoredCSRFToken, hc]
    · intro e he; simp [hc] at he
    · intro e he; simp [hc] at he
    · intro _; simp [getStoredCSRFToken, hc]
  | some tokenData =>
    refine ⟨?_, ?_, ?_, ?_⟩
    · simp only [getStoredCSRFToken, hc]
      by_cases hage : now - tokenData.timestamp < FIVE_MIN_MS
      · simp only [if_pos hage]
        constructor
        · intro _; exact ⟨tokenData, rfl, hage⟩
        · intro _; exact ⟨tokenData.token, rfl⟩
      · simp only [if_neg hage]
        constructor
        · rintro ⟨t, ht⟩; exact Option.noConfusion ht
        · rintro ⟨e, he, hagee⟩
          cases Option.some.inj he
          exact absurd hagee hage
    · intro e he hage
      cases Option.some.inj he
      simp [getStoredCSRFToken, hc, if_pos hage]
    · intro e he hage
      cases Option.some.inj he
      simp only [getStoredCSRFToken, hc, if_neg hage]
      refine ⟨trivial, ?_, ?_⟩
      · simp [cacheDelete]
      · intro k hk
        simp [cacheDelete, hk]
    · intro hnone; exact Option.noConfusion hnone

/-- Witness for C2: a concrete entry stored at time 0 is returned by a
lookup at time 100 with the cache unchanged. -/
theorem getStoredCSRFToken_lookup_spec_witness :
    getStoredCSRFToken cookieS1 100 cacheW2 = (some tokenT1, cacheW2) :=
  (getStoredCSRFToken_lookup_spec cookieS1 100 cacheW2).2.1
    ⟨tokenT1, 0⟩ rfl (by decide)

/-- C9: during token acquisition, a response without a truthy
x-csrf-token header makes the probe continue with the next candidate
endpoint regardless of its status code (including 2xx responses and 403
responses without an anti-forgery marker); a response carrying that
header ends the probe with its value; an exhausted candidate list ends
the probe with none. -/
theorem acquire_header_only_terminates (w : World) (robloxCookie : String)
    (now : Nat) (callIdx : Nat) (ep : AcqEndpoint) (rest : List AcqEndpoint)
    (i : Nat) (st : St) (response : Response) :
    (w.acqFetch callIdx i = JsResult.ok response →
      strTruthy response.csrfTokenHeader = false →
      getCSRFTokenGo w robloxCookie now callIdx (ep :: rest) i st =
        getCSRFTokenGo w robloxCookie now callIdx rest (i + 1)
          (logReq (acqProbeRecord robloxCookie ep) st)) ∧
    (∀ tok, w.acqFetch callIdx i = JsResult.ok response →
      response.csrfTokenHeader = some tok → tok ≠ "" →
      (getCSRFTokenGo w robloxCookie now callIdx (ep :: rest) i st).1 = some tok) ∧
    getCSRFTokenGo w robloxCookie now callIdx [] i st = (none, st) := by
  refine ⟨?_, ?_, rfl⟩
  · intro hres hno
    exact getCSRFTokenGo_cons_continue w robloxCookie now callIdx ep rest i st
      (by rw [hres]; exact hno)
  · intro tok hres hhdr hne
    rw [getCSRFTokenGo_cons_success w robloxCookie now callIdx ep rest i st
      response tok hres hhdr hne]

/-- Witness for C9: a 2xx response without the header makes the probe
move on to the remaining candidates. -/
theorem acquire_header_only_terminates_witness :
    getCSRFTokenGo wC9 cookieS1 0 0 (acqEndpoint1 :: csrfEndpoints.tail) 0 stEmpty =
      getCSRFTokenGo wC9 cookieS1 0 0 csrfEndpoints.tail 1
        (logReq (acqProbeRecord cookieS1 acqEndpoint1) stEmpty) :=
  (acquire_header_only_terminates wC9 cookieS1 0 0 acqEndpoint1
    csrfEndpoints.tail 0 stEmpty (plainResponse 200)).1 rfl (by decide)

/-- C3: when the probe at position k (0-based) is the first acquirer
candidate whose response carries a truthy x-csrf-token header, every
earlier probe throwing or answering without one, getCSRFToken issues
exactly the k+1 first probes, stores the header value for the session at
the current time, returns it, and a subsequent cache lookup within the
freshness window returns the same token. -/
theorem getCSRFToken_first_success_wins (w : World) (robloxCookie : String)
    (now : Nat) (st : St) (k : Nat) (hk : k < csrfEndpoints.length)
    (hearlier : ∀ j, j < k → probeUninformative (w.acqFetch st.acqCalls j))
    (response : Response) (tok : String)
    (hres : w.acqFetch st.acqCalls k = JsResult.ok response)
    (hhdr : response.csrfTokenHeader = some tok) (hne : tok ≠ "") :
    (getCSRFToken w robloxCookie now st).1 = some tok ∧
    (getCSRFToken w robloxCookie now st).2.log =
      st.log ++ (csrfEndpoints.take (k + 1)).map (acqProbeRecord robloxCookie) ∧
    (getCSRFToken w robloxCookie now st).2.cache robloxCookie = some ⟨tok, now⟩ ∧
    ∀ now2, now2 - now < FIVE_MIN_MS →
      (getStoredCSRFToken robloxCookie now2
        (getCSRFToken w robloxCookie now st).2.cache).1 = some tok := by
  unfold getCSRFToken
  have hk4 : k < 4 := by simpa [csrfEndpoints] using hk
  clear hk
  simp only [csrfEndpoints]
  interval_cases k
  · rw [getCSRFTokenGo_cons_success _ _ _ _ _ _ _ _ _ _ hres hhdr hne]
    refine ⟨rfl, ?_, ?_, ?_⟩
    · simp [logReq, csrfEndpoints, acqProbeRecord]
    · simp [storeCSRFToken, cacheSet]
    · intro now2 hage
      simp [getStoredCSRFToken, storeCSRFToken, cacheSet, hage]
  · rw [getCSRFTokenGo_cons_continue _ _ _ _ _ _ _ _ (hearlier 0 (by omega)),
      getCSRFTokenGo_cons_success _ _ _ _ _ _ _ _ _ _ hres hhdr hne]
    refine ⟨rfl, ?_, ?_, ?_⟩
    · simp [logReq, csrfEndpoints, acqProbeRecord]
    · simp [storeCSRFToken, cacheSet]
    · intro now2 hage
      simp [getStoredCSRFToken, storeCSRFToken, cacheSet, hage]
  · rw [getCSRFTokenGo_cons_continue _ _ _ _ _ _ _ _ (hearlier 0 (by omega)),
      getCSRFTokenGo_cons_continue _ _ _ _ _ _ _ _ (hearlier 1 (by omega)),
      getCSRFTokenGo_cons_success _ _ _ _ _ _ _ _ _ _ hres hhdr hne]
    refine ⟨rfl, ?_, ?_, ?_⟩
    · simp [logReq, csrfEndpoints, acqProbeRecord]
    · simp [storeCSRFToken, cacheSet]
    · intro now2 hage
      simp [getStoredCSRFToken, storeCSRFToken, cacheSet, hage]
  · rw [getCSRFTokenGo_cons_continue _ _ _ _ _ _ _ _ (hearlier 0 (by omega)),
      getCSRFTokenGo_cons_continue _ _ _ _ _ _ _ _ (hearlier 1 (by omega)),
      getCSRFTokenGo_cons_continue _ _ _ _ _ _ _ _ (hearlier 2 (by omega)),
      getCSRFTokenGo_cons_success _ _ _ _ _ _ _ _ _ _ hres hhdr hne]
    refine ⟨rfl, ?_, ?_, ?_⟩
    · simp [logReq, csrfEndpoints, acqProbeRecord]
    · simp [storeCSRFToken, cacheSet]
    · intro now2 hage
      simp [getStoredCSRFToken, storeCSRFToken, cacheSet, hage]

/-- Witness for C3: with the first probe throwing and the second
answering with token T1, acquisition for session S1 returns T1 after two
probes, and the immediate lookup returns T1. -/
theorem getCSRFToken_first_success_wins_witness :
    (getCSRFToken w3 cookieS1 0 stEmpty).1 = some tokenT1 ∧
    (getCSRFToken w3 cookieS1 0 stEmpty).2.log =
      stEmpty.log ++ (csrfEndpoints.take 2).map (acqProbeRecord cookieS1) ∧
    (getCSRFToken w3 cookieS1 0 stEmpty).2.cache cookieS1 = some ⟨tokenT1, 0⟩ ∧
    ∀ now2, now2 - 0 < FIVE_MIN_MS →
      (getStoredCSRFToken cookieS1 now2
        (getCSRFToken w3 cookieS1 0 stEmpty).2.cache).1 = some tokenT1 :=
  getCSRFToken_first_success_wins w3 cookieS1 0 stEmpty 1 (by decide)
    (by
      intro j hj
      interval_cases j
      simp [w3, probeUninformative])
    (tokenResponse tokenT1) tokenT1 rfl rfl (by decide)

/-- C4: a 401 from the identity endpoint is terminal: validate reports
the session invalid or expired, issues exactly the one identity request
with no retry, performs no token acquisition, and ignores every later
decision branch (the conclusion holds for every response with status 401,
whatever its body or headers). -/
theorem validate_401_terminal (w : World) (robloxCookie : String) (now : Nat)
    (st : St) (r : Response)
    (hstored : strTruthy (getStoredCSRFToken robloxCookie now st.cache).1 = true)
    (hfetch : w.idFetch st.idReqs = JsResult.ok r)
    (h401 : r.status = 401) :
    (validateCookieWithRoblox w robloxCookie now st).1 =
      invalidOutcome cookieInvalidOrExpiredMsg ∧
    (validateCookieWithRoblox w robloxCookie now st).2.idReqs = st.idReqs + 1 ∧
    (validateCookieWithRoblox w robloxCookie now st).2.acqCalls = st.acqCalls ∧
    (validateCookieWithRoblox w robloxCookie now st).2.cache = st.cache := by
  have hfrozen := getStoredCSRFToken_truthy_frozen robloxCookie now st.cache hstored
  simp only [validateCookieWithRoblox, fetchIdentity, hstored, if_true, hfrozen]
  simp only [hfetch, h401, if_pos rfl]
  simp [hstored]

/-- Witness for C4: a cached fresh token and a 401 identity answer give
the terminal invalid-session outcome after one identity request. -/
theorem validate_401_terminal_witness :
    (validateCookieWithRoblox w401W cookieS1 0 stFresh).1 =
      invalidOutcome cookieInvalidOrExpiredMsg ∧
    (validateCookieWithRoblox w401W cookieS1 0 stFresh).2.idReqs =
      stFresh.idReqs + 1 ∧
    (validateCookieWithRoblox w401W cookieS1 0 stFresh).2.acqCalls =
      stFresh.acqCalls ∧
    (validateCookieWithRoblox w401W cookieS1 0 stFresh).2.cache =
      stFresh.cache :=
  validate_401_terminal w401W cookieS1 0 stFresh (plainResponse 401)
    (by decide) rfl rfl

/-- C1: one validate call issues at most two identity requests whatever
the upstream does (at most one token-refetch-and-retry); and on a 403
with anti-forgery marker followed by a successful token refetch and a
retry answered by any non-2xx response, validate returns a valid-false
outcome after exactly two identity requests, with no third. -/
theorem validate_single_retry_bound (w : World) (robloxCookie : String)
    (now : Nat) (st : St) :
    (validateCookieWithRoblox w robloxCookie now st).2.idReqs ≤ st.idReqs + 2 ∧
    (∀ (r1 : Response) (t1 : String) (ra : Response) (ta : String) (r2 : Response),
      strTruthy (getStoredCSRFToken robloxCookie now st.cache).1 = true →
      w.idFetch st.idReqs = JsResult.ok r1 → r1.status = 403 →
      r1.textResult = JsResult.ok t1 → hasCSRFMarkerText t1 = true →
      w.acqFetch st.acqCalls 0 = JsResult.ok ra →
      ra.csrfTokenHeader = some ta → ta ≠ "" →
      w.idFetch (st.idReqs + 1) = JsResult.ok r2 →
      responseOk r2 = false →
      (validateCookieWithRoblox w robloxCookie now st).1 =
        invalidOutcome (robloxApiReturnedInvalidMsg r2.status) ∧
      (validateCookieWithRoblox w robloxCookie now st).2.idReqs = st.idReqs + 2) := by
  have hres1 : ∀ st' : St, (getCSRFToken w robloxCookie now st').2.idReqs = st'.idReqs :=
    fun st' => (getCSRFTokenGo_counters w robloxCookie now st'.acqCalls csrfEndpoints 0
      { st' with acqCalls := st'.acqCalls + 1 }).1
  constructor
  · simp only [validateCookieWithRoblox, fetchIdentity]
    repeat' split
    all_goals simp_all [hres1]
  · intro r1 t1 ra ta r2 hstored hf1 h403 htext hmarker hares hahdr hane hf2 hnok
    simp only [validateCookieWithRoblox, fetchIdentity, hstored, if_true]
    simp only [hf1, h403]
    norm_num
    rw [htext]
    simp only [hmarker, if_true]
    rw [getCSRFToken]
    simp only [csrfEndpoints]
    rw [getCSRFTokenGo_cons_success _ _ _ _ _ _ _ _ _ _ hares hahdr hane]
    simp only [strTruthy, hane, logReq]
    simp only [hf2, hnok]
    simp [hane]

/-- Witness for C1: two consecutive 403-with-marker identity answers give
a valid-false outcome after exactly two identity requests. -/
theorem validate_single_retry_bound_witness :
    (validateCookieWithRoblox wRetry cookieS1 0 stFresh).1 =
      invalidOutcome (robloxApiReturnedInvalidMsg marker403Response.status) ∧
    (validateCookieWithRoblox wRetry cookieS1 0 stFresh).2.idReqs =
      stFresh.idReqs + 2 :=
  (validate_single_retry_bound wRetry cookieS1 0 stFresh).2 marker403Response
    csrfMarker (tokenResponse tokenT1) tokenT1 marker403Response (by decide)
    rfl rfl rfl (by decide) rfl rfl (by decide) rfl (by decide)

/-- C7: validate and refresh always return tagged result records, never
an exception: a failing validation carries an error message, a failing
refresh carries an error message, a successful refresh carries the input
cookie, and a transport exception at the identity request surfaces as a
valid-false outcome carrying the exception message. -/
theorem no_throw_tagged_outcomes (w : World) (robloxCookie : String)
    (now : Nat) (st : St) (msg : String) :
    ((validateCookieWithRoblox w robloxCookie now st).1.valid = false →
      ∃ m, (validateCookieWithRoblox w robloxCookie now st).1.error = some m) ∧
    ((refreshCookieWithRoblox w robloxCookie now st).1.refreshed = false →
      ∃ m, (refreshCookieWithRoblox w robloxCookie now st).1.error = some m) ∧
    ((refreshCookieWithRoblox w robloxCookie now st).1.refreshed = true →
      (refreshCookieWithRoblox w robloxCookie now st).1.cookie = some robloxCookie) ∧
    (strTruthy (getStoredCSRFToken robloxCookie now st.cache).1 = true →
      w.idFetch st.idReqs = JsResult.thrown msg →
      (validateCookieWithRoblox w robloxCookie now st).1 = invalidOutcome msg) := by
  refine ⟨validate_tagged w robloxCookie now st,
    (refresh_tagged w robloxCookie now st).1,
    (refresh_tagged w robloxCookie now st).2, ?_⟩
  intro hstored hthrow
  simp only [validateCookieWithRoblox, fetchIdentity, hstored, if_true]
  simp only [hthrow]
  simp [hstored]

/-- Witness for C7: an identity fetch throwing with message boom yields
the valid-false outcome carrying that message. -/
theorem no_throw_tagged_outcomes_witness :
    (validateCookieWithRoblox wThrow cookieS1 0 stFresh).1 =
      invalidOutcome boomMsg :=
  (no_throw_tagged_outcomes wThrow cookieS1 0 stFresh boomMsg).2.2.2
    (by decide) rfl

/-- C6: as soon as an endpoint of the refresher list answers 200, 201 or
204 (earlier endpoints throwing or answering neutrally), refresh returns
the refreshed outcome carrying the input cookie and issues no request to
any later endpoint: the request trace ends with that endpoint's
attempt. -/
theorem refresh_first_success_wins (w : World) (robloxCookie : String)
    (now : Nat) (st : St) (k : Nat) (hk : k < refreshEndpoints.length)
    (hstored : strTruthy (getStoredCSRFToken robloxCookie now st.cache).1 = true)
    (hearlier : ∀ j, j < k → refAttemptNeutral (w.refFetch j false))
    (rk : Response) (hres : w.refFetch k false = JsResult.ok rk)
    (hs : refreshSuccessStatus rk.status = true) :
    (refreshCookieWithRoblox w robloxCookie now st).1 =
      refreshedOutcome robloxCookie ∧
    (refreshCookieWithRoblox w robloxCookie now st).2.log =
      st.log ++ (refreshEndpoints.take (k + 1)).map
        (refreshAttemptRecord robloxCookie
          (getStoredCSRFToken robloxCookie now st.cache).1) := by
  rw [refresh_reduces_to_loop w robloxCookie now st hstored]
  unfold refreshRunLoop
  have hk3 : k < 3 := by simpa [refreshEndpoints] using hk
  clear hk
  simp only [refreshEndpoints]
  interval_cases k
  · rw [refreshLoopGo_cons_success _ _ _ _ _ _ _ _ _ _ hres hs]
    exact ⟨by simp, by simp [logReq, refreshEndpoints]⟩
  · rcases refreshLoopGo_cons_neutral_any w robloxCookie now _ _ _ _ _ _
      (hearlier 0 (by omega)) with ⟨l0, e0⟩
    rw [e0, refreshLoopGo_cons_success _ _ _ _ _ _ _ _ _ _ hres hs]
    exact ⟨by simp, by simp [logReq, refreshEndpoints]⟩
  · rcases refreshLoopGo_cons_neutral_any w robloxCookie now _ _ _ _ _ _
      (hearlier 0 (by omega)) with ⟨l0, e0⟩
    rw [e0]
    rcases refreshLoopGo_cons_neutral_any w robloxCookie now _ _ _ _ _ _
      (hearlier 1 (by omega)) with ⟨l1, e1⟩
    rw [e1, refreshLoopGo_cons_success _ _ _ _ _ _ _ _ _ _ hres hs]
    exact ⟨by simp, by simp [logReq, refreshEndpoints]⟩

/-- Witness for C6: a 204 from the first endpoint refreshes immediately
with a one-request trace. -/
theorem refresh_first_success_wins_witness :
    (refreshCookieWithRoblox wOK204 cookieS1 0 stFresh).1 =
      refreshedOutcome cookieS1 ∧
    (refreshCookieWithRoblox wOK204 cookieS1 0 stFresh).2.log =
      stFresh.log ++ (refreshEndpoints.take (0 + 1)).map
        (refreshAttemptRecord cookieS1
          (getStoredCSRFToken cookieS1 0 stFresh.cache).1) :=
  refresh_first_success_wins wOK204 cookieS1 0 stFresh 0 (by decide) (by decide)
    (by intro j hj; exact absurd hj (Nat.not_lt_zero j))
    (plainResponse 204) rfl (by decide)

/-- C5: when the refresher exhausts its whole endpoint list without any
success, the outcome depends on the last observed response: a last
status of 403 yields the authentication-errors failure, while a last
status outside 200/201/204, 403 and 401 (for example all endpoints
answering 500) yields the optimistic refreshed outcome with a warning,
not a failure. -/
theorem refresh_exhausted_classification (w : World) (robloxCookie : String)
    (now : Nat) (st : St) (r0 r1 r2 : Response) (t2 : String)
    (hstored : strTruthy (getStoredCSRFToken robloxCookie now st.cache).1 = true)
    (h0 : w.refFetch 0 false = JsResult.ok r0)
    (h0a : refreshSuccessStatus r0.status = false)
    (h0b : r0.status ≠ 403) (h0c : r0.status ≠ 401)
    (h1 : w.refFetch 1 false = JsResult.ok r1)
    (h1a : refreshSuccessStatus r1.status = false)
    (h1b : r1.status ≠ 403) (h1c : r1.status ≠ 401) :
    (w.refFetch 2 false = JsResult.ok r2 →
      refreshSuccessStatus r2.status = false →
      r2.status ≠ 403 → r2.status ≠ 401 →
      (refreshCookieWithRoblox w robloxCookie now st).1 =
        optimisticOutcome robloxCookie) ∧
    (w.refFetch 2 false = JsResult.ok r2 → r2.status = 403 →
      r2.textResult = JsResult.ok t2 → hasCSRFMarkerText t2 = false →
      (refreshCookieWithRoblox w robloxCookie now st).1 = authErrorsOutcome) := by
  rw [refresh_reduces_to_loop w robloxCookie now st hstored]
  unfold refreshRunLoop
  simp only [refreshEndpoints]
  rw [refreshLoopGo_cons_neutral _ _ _ _ _ _ _ _ _ _ h0 h0a h0b h0c,
      refreshLoopGo_cons_neutral _ _ _ _ _ _ _ _ _ _ h1 h1a h1b h1c]
  constructor
  · intro h2 h2a h2b h2c
    rw [refreshLoopGo_cons_neutral _ _ _ _ _ _ _ _ _ _ h2 h2a h2b h2c]
    simp [refreshLoopGo, h2b, h2c]
  · intro h2 h2a h2b h2c
    rw [refreshLoopGo_cons_403_nomarker _ _ _ _ _ _ _ _ _ _ _ h2 h2a h2b h2c]
    simp [refreshLoopGo, h2a]

/-- Witness for C5: two 500 answers followed by a marker-less 403 yield
the authentication-errors failure. -/
theorem refresh_exhausted_classification_witness :
    (refreshCookieWithRoblox wAuthLast cookieS1 0 stFresh).1 =
      authErrorsOutcome :=
  (refresh_exhausted_classification wAuthLast cookieS1 0 stFresh
    (plainResponse 500) (plainResponse 500) plain403Response noMarkerText
    (by decide) rfl (by decide) (by decide) (by decide)
    rfl (by decide) (by decide) (by decide)).2 rfl rfl rfl (by decide)

lemma refreshLoopGo_exhaust_not_401 (w : World) (robloxCookie : String)
    (now : Nat) :
    ∀ (eps : List RefEndpoint) (i : Nat) (csrfToken : Option String)
      (lastResponse : Option Response) (st : St)
      (out : Option RefreshOutcome) (last2 : Option Response) (st2 : St),
      refreshLoopGo w robloxCookie now eps i csrfToken lastResponse st =
        (out, last2, st2) →
      (∀ r0, lastResponse = some r0 → r0.status ≠ 401) →
      out = none → ∀ r, last2 = some r → r.status ≠ 401 := by
  intro eps
  induction eps with
  | nil =>
    intro i csrfToken lastResponse st out last2 st2 heq hlast hout r hr
    injection heq with h1 h2
    injection h2 with h3 h4
    subst h3
    exact hlast r hr
  | cons ep rest ih =>
    intro i csrfToken lastResponse st out last2 st2 heq hlast hout r hr
    simp only [refreshLoopGo] at heq
    repeat' split at heq
    all_goals
      first
        | exact ih _ _ _ _ _ _ _ heq hlast hout r hr
        | (injection heq with h1 h2
           rw [hout] at h1
           exact Option.noConfusion h1)
        | (refine ih _ _ _ _ _ _ _ heq ?_ hout r hr
           intro r0 hr0
           cases Option.some.inj hr0
           simp_all)

/-- C10: when the refresher endpoint loop exhausts, the last observed
response never has status 401 (a first-attempt 401 returns from inside
the loop, and retry responses are not recorded), so the post-loop
authentication-errors branch is reachable only with a last status of 403
and its test of the last status against 401 is dead. -/
theorem refresh_post_loop_never_401 (w : World) (robloxCookie : String)
    (now : Nat) (csrfToken : Option String) (st : St) (r : Response)
    (hnone : (refreshLoopGo w robloxCookie now refreshEndpoints 0 csrfToken
      none st).1 = none)
    (hlast : (refreshLoopGo w robloxCookie now refreshEndpoints 0 csrfToken
      none st).2.1 = some r) :
    r.status ≠ 401 ∧ ((r.status = 403 ∨ r.status = 401) ↔ r.status = 403) := by
  rcases heq : refreshLoopGo w robloxCookie now refreshEndpoints 0 csrfToken
    none st with ⟨out, last2, st2⟩
  rw [heq] at hnone hlast
  have hne := refreshLoopGo_exhaust_not_401 w robloxCookie now refreshEndpoints
    0 csrfToken none st out last2 st2 heq
    (fun r0 h0 => Option.noConfusion h0) hnone r hlast
  refine ⟨hne, ?_, fun h => Or.inl h⟩
  intro h
  rcases h with h | h
  · exact h
  · exact absurd h hne

/-- Witness for C10: an exhausted loop whose last observed response is
the marker-less 403 of wAuthLast has a last status different from 401. -/
theorem refresh_post_loop_never_401_witness :
    plain403Response.status ≠ 401 ∧
    ((plain403Response.status = 403 ∨ plain403Response.status = 401) ↔
      plain403Response.status = 403) :=
  refresh_post_loop_never_401 wAuthLast cookieS1 0 (some tokenT1) stFresh
    plain403Response (by decide) (by decide)

lemma goodRedirect_acqProbe (robloxCookie : String) (ep : AcqEndpoint) :
    goodRedirect (acqProbeRecord robloxCookie ep) := by
  constructor <;> intro h <;> simp_all [acqProbeRecord, acqRequestOptions]

lemma goodRedirect_identityRec (robloxCookie csrfToken : String) :
    goodRedirect ⟨Site.identity, identityUrl,
      identityRequestOptions robloxCookie csrfToken⟩ := by
  constructor <;> intro h <;> simp_all [identityRequestOptions]

lemma goodRedirect_refreshAttempt (robloxCookie : String)
    (csrfToken : Option String) (ep : RefEndpoint) :
    goodRedirect (refreshAttemptRecord robloxCookie csrfToken ep) := by
  constructor <;> intro h <;>
    simp_all [refreshAttemptRecord, refreshRequestOptions]

lemma GoodLog_mk (cache : Cache) (acqCalls idReqs : Nat)
    (l : List ReqRecord) (reqr : ReqRecord)
    (hl : ∀ x ∈ l, goodRedirect x) (hr : goodRedirect reqr) :
    GoodLog ⟨cache, acqCalls, idReqs, l ++ [reqr]⟩ := by
  intro x hx
  rcases List.mem_append.mp hx with hx | hx
  · exact hl x hx
  · rw [List.mem_singleton.mp hx]
    exact hr

lemma GoodLog_mk_plain (cache : Cache) (acqCalls idReqs : Nat)
    (l : List ReqRecord) (hl : ∀ x ∈ l, goodRedirect x) :
    GoodLog ⟨cache, acqCalls, idReqs, l⟩ := hl

lemma getCSRFTokenGo_GoodLog (w : World) (robloxCookie : String) (now : Nat)
    (callIdx : Nat) :
    ∀ (eps : List AcqEndpoint) (i : Nat) (st : St), GoodLog st →
      GoodLog (getCSRFTokenGo w robloxCookie now callIdx eps i st).2 := by
  intro eps
  induction eps with
  | nil => intro i st h; exact h
  | cons ep rest ih =>
    intro i st h
    have h1 : GoodLog (logReq (acqProbeRecord robloxCookie ep) st) :=
      GoodLog_mk st.cache st.acqCalls st.idReqs st.log (acqProbeRecord robloxCookie ep)
        h (goodRedirect_acqProbe robloxCookie ep)
    cases hres : w.acqFetch callIdx i with
    | thrown msg =>
      simp only [getCSRFTokenGo, hres]
      exact ih (i + 1) _ h1
    | ok response =>
      simp only [getCSRFTokenGo, hres]
      cases hhdr : response.csrfTokenHeader with
      | none =>
        simp only
        split <;> exact ih (i + 1) _ h1
      | some tok =>
        simp only
        by_cases htok : tok = ""
        · simp only [if_pos htok]
          split <;> exact ih (i + 1) _ h1
        · simp only [if_neg htok]
          exact h1

lemma getCSRFToken_GoodLog (w : World) (robloxCookie : String) (now : Nat)
    (st : St) (h : GoodLog st) :
    GoodLog (getCSRFToken w robloxCookie now st).2 :=
  getCSRFTokenGo_GoodLog w robloxCookie now st.acqCalls csrfEndpoints 0
    { st with acqCalls := st.acqCalls + 1 } h

lemma validate_GoodLog (w : World) (robloxCookie : String) (now : Nat)
    (st : St) (hlog : GoodLog st) :
    GoodLog (validateCookieWithRoblox w robloxCookie now st).2 := by
  rcases heq : validateCookieWithRoblox w robloxCookie now st with ⟨o, st2⟩
  show GoodLog st2
  simp only [validateCookieWithRoblox, fetchIdentity] at heq
  repeat' split at heq
  all_goals
    injection heq with h1 h2
  all_goals subst h2
  all_goals
    repeat'
      first
        | exact hlog
        | exact goodRedirect_identityRec _ _
        | refine GoodLog_mk _ _ _ _ _ ?_ ?_
        | refine getCSRFToken_GoodLog _ _ _ _ ?_

lemma refreshLoopGo_GoodLog (w : World) (robloxCookie : String) (now : Nat) :
    ∀ (eps : List RefEndpoint) (i : Nat) (csrfToken : Option String)
      (lastResponse : Option Response) (st : St)
      (out : Option RefreshOutcome) (last2 : Option Response) (st2 : St),
      refreshLoopGo w robloxCookie now eps i csrfToken lastResponse st =
        (out, last2, st2) →
      GoodLog st → GoodLog st2 := by
  intro eps
  induction eps with
  | nil =>
    intro i csrfToken lastResponse st out last2 st2 heq h
    injection heq with h1 h2
    injection h2 with h3 h4
    subst h4
    exact h
  | cons ep rest ih =>
    intro i csrfToken lastResponse st out last2 st2 heq h
    simp only [refreshLoopGo] at heq
    repeat' split at heq
    all_goals
      first
        | refine ih _ _ _ _ _ _ _ heq ?_
        | (injection heq with h1 h2
           injection h2 with h3 h4
           subst h4)
    all_goals
      repeat'
        first
          | exact h
          | exact goodRedirect_refreshAttempt _ _ _
          | refine GoodLog_mk _ _ _ _ _ ?_ ?_
          | refine getCSRFToken_GoodLog _ _ _ _ ?_

lemma refreshRunLoop_GoodLog (w : World) (robloxCookie : String) (now : Nat)
    (csrfToken : Option String) (st : St) (h : GoodLog st) :
    GoodLog (refreshRunLoop w robloxCookie now csrfToken st).2 := by
  unfold refreshRunLoop
  rcases heq : refreshLoopGo w robloxCookie now refreshEndpoints 0 csrfToken
    none st with ⟨out, last2, st2⟩
  have h2 : GoodLog st2 := refreshLoopGo_GoodLog w robloxCookie now
    refreshEndpoints 0 csrfToken none st out last2 st2 heq h
  cases out with
  | some o => exact h2
  | none =>
    cases last2 with
    | none => exact h2
    | some r =>
      show GoodLog ((if (decide (r.status = 403) || decide (r.status = 401)) = true
        then (authErrorsOutcome, st2)
        else (optimisticOutcome robloxCookie, st2)).2)
      split <;> exact h2

lemma refresh_GoodLog (w : World) (robloxCookie : String) (now : Nat)
    (st : St) (hlog : GoodLog st) :
    GoodLog (refreshCookieWithRoblox w robloxCookie now st).2 := by
  simp only [refreshCookieWithRoblox, refreshAfterToken]
  repeat' split
  all_goals
    repeat'
      first
        | exact hlog
        | refine refreshRunLoop_GoodLog _ _ _ _ _ ?_
        | refine validate_GoodLog _ _ _ _ ?_
        | refine getCSRFToken_GoodLog _ _ _ _ ?_

/-- C8 counterexample: in a concrete validate run, not every issued
request carries redirect manual: the identity request is issued without a
redirect option, so the claim that every outbound request disables
redirect following is false on the code. -/
theorem redirect_everywhere_counterexample :
    ((validateCookieWithRoblox wC9 cookieS1 0 stFresh).2.log.all
      (fun reqr => reqr.options.redirect == some manualRedirect)) = false := by
  decide

/-- C8 as amended: the acquirer probes and the refresher endpoint
attempts (retries included) are issued with redirect manual, while the
validator identity request and its retry are issued with no redirect
option, leaving node-fetch to follow redirects there; this holds for
every run of validate, refresh and acquire started from a trace whose
records already satisfy that discipline. -/
theorem redirect_discipline_amended (w : World) (robloxCookie : String)
    (now : Nat) (st : St) (hlog : GoodLog st) :
    (∀ reqr ∈ (validateCookieWithRoblox w robloxCookie now st).2.log,
      goodRedirect reqr) ∧
    (∀ reqr ∈ (refreshCookieWithRoblox w robloxCookie now st).2.log,
      goodRedirect reqr) ∧
    (∀ reqr ∈ (getCSRFToken w robloxCookie now st).2.log, goodRedirect reqr) :=
  ⟨validate_GoodLog w robloxCookie now st hlog,
   refresh_GoodLog w robloxCookie now st hlog,
   getCSRFToken_GoodLog w robloxCookie now st hlog⟩

/-- Witness for the amended C8: a concrete run from the empty trace. -/
theorem redirect_discipline_amended_witness :
    (∀ reqr ∈ (validateCookieWithRoblox wC9 cookieS1 0 stFresh).2.log,
      goodRedirect reqr) ∧
    (∀ reqr ∈ (refreshCookieWithRoblox wC9 cookieS1 0 stFresh).2.log,
      goodRedirect reqr) ∧
    (∀ reqr ∈ (getCSRFToken wC9 cookieS1 0 stFresh).2.log, goodRedirect reqr) :=
  redirect_discipline_amended wC9 cookieS1 0 stFresh
    (by intro reqr hr; simp [stFresh] at hr)

end HunterzzServer
